import Mathlib

/-!
Shallow embedding of the `auth-service` repository (TypeScript / NestJS) in
Lean 4, together with theorems settling the specification claims about it.

Each definition below is translated from a concrete source file of the
repository (named in its doc comment).  TypeScript `null`/`undefined` is
modelled by `Option`; thrown exceptions are modelled by `Except` carrying the
thrown message (and, where a claim is about the error kind, a tagged error
type); JavaScript `Date` values are modelled as abstract `Nat` instants.
-/

set_option autoImplicit false

deriving instance DecidableEq for Except

namespace AuthService

/-! ## JavaScript string primitives

The email regular expression `^[^\s@]+@[^\s@]+\.[^\s@]+$` and
`String.prototype.trim` both refer to the JavaScript whitespace class `\s`,
which we reproduce exactly (space, tab, LF, VT, FF, CR, NBSP, Ogham space,
the U+2000–U+200A range, LS, PS, NNBSP, MMSP, ideographic space, BOM).
-/

/-- The JavaScript `\s` character class (also used by `trim`). -/
def jsWhitespace (c : Char) : Bool :=
  c.toNat == 0x20 || c.toNat == 0x9 || c.toNat == 0xa || c.toNat == 0xb ||
  c.toNat == 0xc || c.toNat == 0xd || c.toNat == 0xa0 || c.toNat == 0x1680 ||
  (0x2000 ≤ c.toNat && c.toNat ≤ 0x200a) ||
  c.toNat == 0x2028 || c.toNat == 0x2029 || c.toNat == 0x202f ||
  c.toNat == 0x205f || c.toNat == 0x3000 || c.toNat == 0xfeff

/-- JavaScript `String.prototype.trim`: strip `\s`-class characters from both
ends of the string. -/
def jsTrim (s : String) : String :=
  String.mk (((s.data.dropWhile jsWhitespace).reverse.dropWhile jsWhitespace).reverse)

/-- A character of the `[^\s@]` class of the email regular expression. -/
def isEmailChar (c : Char) : Bool :=
  !jsWhitespace c && c != '@'

/-- Helper for the email matcher: does the list contain a `'.'` that is
followed by at least one further character? -/
def hasDotBeforeEnd : List Char → Bool
  | [] => false
  | c :: rest => (c == '.' && !rest.isEmpty) || hasDotBeforeEnd rest

/-- Helper for the email matcher: the part after the `'@'` must decompose as
`B ++ '.' :: C` with `B` and `C` non-empty, i.e. it must contain a `'.'`
that is neither its first nor its last character. -/
def emailDomainOk : List Char → Bool
  | [] => false
  | _ :: t => hasDotBeforeEnd t

/-- Executable matcher for the regular expression
`^[^\s@]+@[^\s@]+\.[^\s@]+$` used by the `Email` value object
(`src/auth/domain/value-objects/email.vo.ts`).  The three character classes
all exclude `'@'`, so a matching string has exactly one `'@'`; we split at it
and check both sides. -/
def matchesEmailPattern (s : String) : Bool :=
  match s.data.dropWhile (fun c => c != '@') with
  | [] => false
  | _ :: domainPart =>
      !(s.data.takeWhile (fun c => c != '@')).isEmpty &&
      (s.data.takeWhile (fun c => c != '@')).all isEmailChar &&
      domainPart.all isEmailChar && emailDomainOk domainPart

/-- Declarative semantics of the regular expression
`^[^\s@]+@[^\s@]+\.[^\s@]+$`: the whole string decomposes as
`A ++ "@" ++ B ++ "." ++ C` with `A`, `B`, `C` non-empty lists of
`[^\s@]`-class characters. -/
def emailRegexSpec (s : String) : Prop :=
  ∃ A B C : List Char, A ≠ [] ∧ B ≠ [] ∧ C ≠ [] ∧
    (∀ c ∈ A, isEmailChar c = true) ∧
    (∀ c ∈ B, isEmailChar c = true) ∧
    (∀ c ∈ C, isEmailChar c = true) ∧
    s.data = A ++ '@' :: (B ++ '.' :: C)

/-! ## Email value object

Source: `src/auth/domain/value-objects/email.vo.ts` — the constructor runs
`validate`, which tests the regular expression and throws
`Error('Invalid email format')` on failure; `get()` returns the stored
string unchanged. -/

/-- The `Email` value object: a single stored string. -/
structure Email where
  email : String
  deriving DecidableEq, Repr

/-- The `Email` constructor: validates against the regular expression and
stores the string unchanged on success; throws `'Invalid email format'`
otherwise. -/
def Email.mk? (s : String) : Except String Email :=
  if matchesEmailPattern s then .ok ⟨s⟩ else .error "Invalid email format"

/-- `Email.get()`: returns the stored string. -/
def Email.get (e : Email) : String := e.email

/-! ## Entity identifier primitive

Source: `src/auth/domain/value-objects/entity-id.vo.ts` — `EntityId<T>`
stores a read-only raw value after validation; the base validation throws
`'ID cannot be null or undefined'` on `null`/`undefined`; `equals` returns
`false` for an absent argument and otherwise compares raw values with `===`.
-/

/-- The `EntityId<T>` wrapper around a raw identifier value. -/
structure EntityId (α : Type) where
  value : α
  deriving DecidableEq

/-- Base `EntityId` construction through the protected constructor: the base
`validate` throws when the raw value is absent. -/
def EntityId.create? {α : Type} (v : Option α) : Except String (EntityId α) :=
  match v with
  | none => .error "ID cannot be null or undefined"
  | some x => .ok ⟨x⟩

/-- `EntityId.equals(other)`: `false` when `other` is absent, else raw-value
equality. -/
def EntityId.equals {α : Type} [DecidableEq α]
    (self : EntityId α) (other : Option (EntityId α)) : Bool :=
  match other with
  | none => false
  | some o => decide (self.value = o.value)

/-! ## Entity base type

Source: `src/auth/domain/entities/entity.ts`.  The runtime
`this.constructor !== other.constructor` test distinguishes concrete
subclasses; we model the constructor identity as a `ctorName` tag carried by
each entity value (distinct concrete classes carry distinct tags).  `getId`
throws `EntityIdNotSetException` (message `'Entity ID is not set'`, from
`src/auth/domain/exceptions/entity-id-not-set.exception.ts`) when the id is
absent. -/

/-- The `Entity<TId>` base type, generic over the raw identifier value type. -/
structure Entity (α : Type) where
  ctorName : String
  id : Option (EntityId α)
  deriving DecidableEq

/-- `Entity.getId()`: the id, or the `'Entity ID is not set'` error. -/
def Entity.getId {α : Type} (e : Entity α) : Except String (EntityId α) :=
  match e.id with
  | none => .error "Entity ID is not set"
  | some i => .ok i

/-- `Entity.equals(other)`: `false` when `other` is absent or this id is
absent; `false` on a constructor mismatch; otherwise compares this id with
`other.getId()` — note that `other.getId()` throws when `other` has no id. -/
def Entity.equals {α : Type} [DecidableEq α]
    (self : Entity α) (other : Option (Entity α)) : Except String Bool :=
  match other, self.id with
  | none, _ => .ok false
  | some _, none => .ok false
  | some o, some i =>
    if self.ctorName ≠ o.ctorName then .ok false
    else do
      let oid ← o.getId
      .ok (i.equals (some oid))

/-- `Entity.isNew()`: true iff the id is absent. -/
def Entity.isNew {α : Type} (e : Entity α) : Bool := e.id.isNone

/-! ## UserId

Source: `src/auth/domain/value-objects/user-id.vo.ts` — `validate` calls the
base null/undefined check first, then throws
`'UserId must be a non-empty string'` when the value is not of string type
or trims to the empty string.  `create` adopts any external string;
`generate` wraps `crypto.randomUUID()`. -/

/-- A JavaScript value reaching `UserId.create` at runtime: `null`/
`undefined`, a string, or some non-string non-nullish value (the repository's
own test passes the number `123` this way). -/
inductive JsInput where
  | nullish
  | str (s : String)
  | nonString
  deriving DecidableEq

/-- The `UserId` value object (an `EntityId<string>` subclass). -/
structure UserId where
  value : String
  deriving DecidableEq, Repr

/-- `UserId.create(value)`: runs the base absent-check, then the
string-type/trim check, then stores the string unchanged. -/
def UserId.create? (v : JsInput) : Except String UserId :=
  match v with
  | .nullish => .error "ID cannot be null or undefined"
  | .nonString => .error "UserId must be a non-empty string"
  | .str s =>
      if (jsTrim s).length = 0 then .error "UserId must be a non-empty string"
      else .ok ⟨s⟩

/-- Modelled from the spec: `UserId.generate()` wraps `crypto.randomUUID()`,
a vendored library call that "must be statistically unique per call".  The
random source is modelled as a read from a stream `uuidStream` of fresh UUID
strings at the current call index `k`; statistical uniqueness corresponds to
injectivity of the stream. -/
def UserId.generate (uuidStream : Nat → String) (k : Nat) : UserId :=
  ⟨uuidStream k⟩

/-! ## User entity

Source: `src/auth/domain/entities/user.entity.ts` (final version, with
status and timestamps).  `user-status.enum.ts` itself is not under `src/`. -/

/-- Modelled from the spec: `UserStatus` (file `user-status.enum.ts` is
missing from the sources; only its use sites appear).  The spec describes an
enumeration with `ACTIVE` used and other members reserved; the end-to-end
test observes the serialized value `'ACTIVE'`, so it is a TypeScript string
enum, whose runtime values are strings. -/
abbrev UserStatus := String

/-- The `ACTIVE` member of `UserStatus`. -/
def UserStatus.ACTIVE : UserStatus := "ACTIVE"

/-- The `User` aggregate.  The `id` field is the `Entity` base-class field
(optional there); both factories populate it. -/
structure User where
  id : Option UserId
  firstName : Option String
  lastName : Option String
  email : Email
  passwordHash : String
  status : UserStatus
  createdAt : Nat
  updatedAt : Nat
  deriving DecidableEq, Repr

/-- The private `User` constructor: assigns every field, in particular
`this.id = id` with a non-optional `id` argument. -/
def User.make (id : UserId) (firstName lastName : Option String) (email : Email)
    (passwordHash : String) (status : UserStatus) (createdAt updatedAt : Nat) : User :=
  { id := some id, firstName := firstName, lastName := lastName, email := email,
    passwordHash := passwordHash, status := status,
    createdAt := createdAt, updatedAt := updatedAt }

/-- `User.create`: fresh id via `UserId.generate()`, status `ACTIVE`,
`createdAt = updatedAt = now` (a single `new Date()` call, modelled by the
instant `now`). -/
def User.create (uuidStream : Nat → String) (k : Nat) (now : Nat)
    (firstName lastName : Option String) (email : Email) (passwordHash : String) : User :=
  User.make (UserId.generate uuidStream k) firstName lastName email passwordHash
    UserStatus.ACTIVE now now

/-- `User.reconstitute`: id via `UserId.create(id)` (whose validation error
propagates), all other fields restored verbatim. -/
def User.reconstitute (id : String) (firstName lastName : Option String) (email : Email)
    (passwordHash : String) (status : UserStatus) (createdAt updatedAt : Nat) :
    Except String User := do
  let userId ← UserId.create? (.str id)
  .ok (User.make userId firstName lastName email passwordHash status createdAt updatedAt)

/-- `getId` as inherited by `User` from `Entity`. -/
def User.getId (u : User) : Except String UserId :=
  match u.id with
  | none => .error "Entity ID is not set"
  | some i => .ok i

/-- `isNew` as inherited by `User` from `Entity`. -/
def User.isNew (u : User) : Bool := u.id.isNone

/-! ## Presentation mapper

Source: `src/auth/application/mappers/user.mapper.ts`. -/

/-- The outward-facing `UserResponseDto` shape
(`src/auth/infrastructure/controllers/dto/user-response.dto.ts`): exactly
these seven fields, no password data. -/
structure UserResponseDto where
  id : String
  email : String
  firstName : Option String
  lastName : Option String
  status : UserStatus
  createdAt : Nat
  updatedAt : Nat
  deriving DecidableEq, Repr

/-- `UserMapper.toResponseDto(user)`: `user.getId().value`,
`user.email.get()` and the remaining plain fields. -/
def UserMapper.toResponseDto (user : User) : Except String UserResponseDto := do
  let uid ← user.getId
  .ok { id := uid.value, email := user.email.get, firstName := user.firstName,
        lastName := user.lastName, status := user.status,
        createdAt := user.createdAt, updatedAt := user.updatedAt }

/-! ## Persistence mapper

Source: `PrismaUserMapper` (in
`src/auth/infrastructure/persistence/prisma/mappers/prisma-user.mapper.ts`). -/

/-- The flat database row shape used by the Prisma client. -/
structure PrismaUser where
  id : String
  email : String
  password : String
  firstName : Option String
  lastName : Option String
  status : String
  createdAt : Nat
  updatedAt : Nat
  deriving DecidableEq, Repr

/-- `PrismaUserMapper.toDomain(row)`: `new Email(row.email)` is evaluated
first (its validation error propagates), then `User.reconstitute` with all
row fields; the `as UserStatus` cast is the identity at runtime. -/
def PrismaUserMapper.toDomain (prismaUser : PrismaUser) : Except String User := do
  let email ← Email.mk? prismaUser.email
  User.reconstitute prismaUser.id prismaUser.firstName prismaUser.lastName email
    prismaUser.password prismaUser.status prismaUser.createdAt prismaUser.updatedAt

/-- `PrismaUserMapper.toPersistence(user)`: the row with
`id = user.getId().value`, `email = user.email.get()`,
`password = user.passwordHash` and the remaining fields verbatim. -/
def PrismaUserMapper.toPersistence (user : User) : Except String PrismaUser := do
  let uid ← user.getId
  .ok { id := uid.value, email := user.email.get, password := user.passwordHash,
        firstName := user.firstName, lastName := user.lastName, status := user.status,
        createdAt := user.createdAt, updatedAt := user.updatedAt }

/-! ## Registration application service

Source: `src/auth/application/services/user-register.service.ts`.  The two
injected ports (repository, hasher) are modelled as pure functions in an
environment; every port invocation is additionally recorded in an event
trace so call counts are observable.  The generated UUID and the current
time are drawn from the environment as for `User.create`. -/

/-- The inbound `RegisterUserDto`
(`src/auth/infrastructure/controllers/dto/user-registration.dto.ts`). -/
structure RegisterUserDto where
  email : String
  firstName : Option String
  lastName : Option String
  password : String
  deriving DecidableEq, Repr

/-- One port invocation performed by the registration service. -/
inductive PortCall where
  | findByEmail (email : Email)
  | hash (password : String)
  | save (user : User)
  deriving DecidableEq, Repr

/-- An error escaping `register`: either a plain thrown `Error` (as raised by
the `Email` constructor) or a NestJS `ConflictException`. -/
inductive RegisterError where
  | thrown (message : String)
  | conflict (message : String)
  deriving DecidableEq, Repr

/-- The environment of a `register` call: the behaviour of the injected
repository and hasher ports, plus the UUID source and the current time. -/
structure RegisterEnv where
  findByEmailImpl : Email → Option User
  hashImpl : String → String
  saveImpl : User → User
  uuidStream : Nat → String
  uuidIndex : Nat
  now : Nat

/-- `UserRegisterService.register(dto)`: construct the `Email` (propagating
its validation error); look the email up; on a hit throw
`ConflictException('User already exists')`; otherwise hash the password,
build the `User` via `User.create`, call `save`, and return the in-memory
`User` (the `save` return value is discarded).  The second component is the
trace of port invocations. -/
def UserRegisterService.register (env : RegisterEnv) (registerUserDto : RegisterUserDto) :
    Except RegisterError User × List PortCall :=
  match Email.mk? registerUserDto.email with
  | .error m => (.error (.thrown m), [])
  | .ok email =>
    match env.findByEmailImpl email with
    | some _ => (.error (.conflict "User already exists"), [.findByEmail email])
    | none =>
      let hashedPassword := env.hashImpl registerUserDto.password
      let user := User.create env.uuidStream env.uuidIndex env.now
        registerUserDto.firstName registerUserDto.lastName email hashedPassword
      let _saved := env.saveImpl user
      (.ok user, [.findByEmail email, .hash registerUserDto.password, .save user])

/-! ## Domain-exception filter

Source: `src/auth/infrastructure/filters/domain-exception.filter.ts`.  The
caught error carries its message; when it is a NestJS `BadRequestException`
it additionally carries its own declared status and structured response
payload.  The current time's ISO rendering is passed in as `nowIso`. -/

/-- The substring test used by the filter (`String.prototype.includes`). -/
def listContainsSub (pat : List Char) : List Char → Bool
  | [] => pat.isEmpty
  | c :: rest => pat.isPrefixOf (c :: rest) || listContainsSub pat rest

/-- `message.includes(pat)`. -/
def strIncludes (s pat : String) : Bool := listContainsSub pat.data s.data

/-- A NestJS `HttpException#getResponse()` payload: a plain string, or an
object carrying a `message` field. -/
inductive NestResponse where
  | str (s : String)
  | obj (message : String)
  deriving DecidableEq, Repr

/-- The error caught by the filter: its message, and — when it is a
`BadRequestException` — its declared status and response payload. -/
structure CaughtError where
  message : String
  badRequest : Option (Nat × NestResponse)
  deriving DecidableEq, Repr

/-- The JSON body `{ statusCode, message, timestamp }` sent by the filter. -/
structure ErrorBody where
  statusCode : Nat
  message : String
  timestamp : String
  deriving DecidableEq, Repr

/-- `DomainExceptionFilter.catch`: status starts at 500, is overwritten by
the message-substring chain, and is finally overridden by a
`BadRequestException`'s own status/response; the result is the pair of the
HTTP status set on the response and the JSON body. -/
def DomainExceptionFilter.catchErr (nowIso : String) (exception : CaughtError) :
    Nat × ErrorBody :=
  let status :=
    if strIncludes exception.message "Invalid email format" then 400
    else if strIncludes exception.message "User already exists" then 409
    else if strIncludes exception.message "UserId must be" then 400
    else 500
  match exception.badRequest with
  | some (st, .str s) => (st, ⟨st, s, nowIso⟩)
  | some (st, .obj m) => (st, ⟨st, m, nowIso⟩)
  | none => (status, ⟨status, exception.message, nowIso⟩)

/-! ## Helper lemmas -/

/-- Reduction of the `Except` monad bind on a success value. -/
@[simp] lemma exceptBind_ok {ε α β : Type} (a : α) (f : α → Except ε β) :
    (Except.ok (ε := ε) a >>= f) = f a := rfl

/-- Reduction of the `Except` monad bind on an error value. -/
@[simp] lemma exceptBind_error {ε α β : Type} (m : ε) (f : α → Except ε β) :
    (Except.error (α := α) m >>= f) = Except.error (α := β) m := rfl

lemma hasDotBeforeEnd_iff (t : List Char) :
    hasDotBeforeEnd t = true ↔ ∃ P Q : List Char, Q ≠ [] ∧ t = P ++ '.' :: Q := by
  induction t with
  | nil =>
    simp [hasDotBeforeEnd]
  | cons c rest ih =>
    simp only [hasDotBeforeEnd, Bool.or_eq_true, Bool.and_eq_true, beq_iff_eq,
      Bool.not_eq_true', List.isEmpty_eq_false, ih]
    constructor
    · rintro (⟨rfl, hne⟩ | ⟨P, Q, hQ, rfl⟩)
      · exact ⟨[], rest, hne, rfl⟩
      · exact ⟨c :: P, Q, hQ, rfl⟩
    · rintro ⟨P, Q, hQ, hEq⟩
      cases P with
      | nil =>
        cases hEq
        exact Or.inl ⟨rfl, hQ⟩
      | cons p P' =>
        cases hEq
        exact Or.inr ⟨P', Q, hQ, rfl⟩

lemma dropWhile_cons_head {α : Type} (p : α → Bool) :
    ∀ (l : List α) (x : α) (xs : List α), l.dropWhile p = x :: xs → p x = false := by
  intro l
  induction l with
  | nil => intro x xs h; simp [List.dropWhile] at h
  | cons c t ih =>
    intro x xs h
    by_cases hc : p c
    · rw [List.dropWhile_cons_of_pos hc] at h
      exact ih x xs h
    · rw [List.dropWhile_cons_of_neg hc] at h
      cases h
      simpa using hc

lemma span_at_marker {α : Type} (p : α → Bool) (A : List α) (b : α) (r : List α)
    (hA : ∀ c ∈ A, p c = true) (hb : p b = false) :
    (A ++ b :: r).takeWhile p = A ∧ (A ++ b :: r).dropWhile p = b :: r := by
  induction A with
  | nil =>
    constructor
    · simp [List.takeWhile_cons_of_neg, hb]
    · simp [List.dropWhile_cons_of_neg, hb]
  | cons a A' ih =>
    have ha : p a = true := hA a (List.mem_cons_self _ _)
    have hA' : ∀ c ∈ A', p c = true := fun c hc => hA c (List.mem_cons_of_mem _ hc)
    obtain ⟨ht, hd⟩ := ih hA'
    constructor
    · simpa [List.takeWhile_cons_of_pos ha] using ht
    · simpa [List.dropWhile_cons_of_pos ha] using hd

/-- The executable matcher agrees with the declarative semantics of the
regular expression `^[^\s@]+@[^\s@]+\.[^\s@]+$`. -/
theorem matchesEmailPattern_iff (s : String) :
    matchesEmailPattern s = true ↔ emailRegexSpec s := by
  constructor
  · intro h
    unfold matchesEmailPattern at h
    rcases hdrop : s.data.dropWhile (fun c => c != '@') with _ | ⟨d, domainPart⟩
    · rw [hdrop] at h; simp at h
    · rw [hdrop] at h
      simp only [Bool.and_eq_true, Bool.not_eq_true', List.isEmpty_eq_false,
        List.all_eq_true] at h
      obtain ⟨⟨⟨hne, hlocal⟩, hdomAll⟩, hdomOk⟩ := h
      have hd : (fun c => c != '@') d = false :=
        dropWhile_cons_head _ s.data d domainPart hdrop
      have hdAt : d = '@' := by simpa using hd
      cases domainPart with
      | nil => simp [emailDomainOk] at hdomOk
      | cons e t =>
        obtain ⟨P, Q, hQ, hPQ⟩ := (hasDotBeforeEnd_iff t).mp (by simpa [emailDomainOk] using hdomOk)
        refine ⟨s.data.takeWhile (fun c => c != '@'), e :: P, Q, hne, by simp, hQ, hlocal, ?_, ?_, ?_⟩
        · intro c hc
          apply hdomAll
          rcases List.mem_cons.mp hc with rfl | hc
          · exact List.mem_cons_self _ _
          · exact List.mem_cons_of_mem _ (hPQ ▸ List.mem_append_left _ hc)
        · intro c hc
          exact hdomAll c (List.mem_cons_of_mem _ (hPQ ▸ List.mem_append_right _ (List.mem_cons_of_mem _ hc)))
        · have hsplit := List.takeWhile_append_dropWhile (p := fun c => c != '@') (l := s.data)
          rw [hdrop, hdAt] at hsplit
          exact hsplit.symm.trans (by rw [hPQ]; simp)
  · rintro ⟨A, B, C, hA, hB, hC, hAc, hBc, hCc, hs⟩
    have hAp : ∀ c ∈ A, (fun c => c != '@') c = true := by
      intro c hc
      have := hAc c hc
      simp only [isEmailChar, Bool.and_eq_true] at this
      simpa using this.2
    have hAt : (fun c => c != '@') '@' = false := by simp
    obtain ⟨htake, hdrop⟩ := span_at_marker (fun c => c != '@') A '@' (B ++ '.' :: C) hAp hAt
    unfold matchesEmailPattern
    rw [hs, htake, hdrop]
    have hdot : isEmailChar '.' = true := by decide
    simp only [Bool.and_eq_true, Bool.not_eq_true', List.isEmpty_eq_false,
      List.all_eq_true]
    refine ⟨⟨⟨hA, hAc⟩, ?_⟩, ?_⟩
    · intro c hc
      rcases List.mem_append.mp hc with hc | hc
      · exact hBc c hc
      · rcases List.mem_cons.mp hc with rfl | hc
        · exact hdot
        · exact hCc c hc
    · cases B with
      | nil => exact absurd rfl hB
      | cons b B' =>
        simp only [emailDomainOk, List.cons_append]
        exact (hasDotBeforeEnd_iff _).mpr ⟨B', C, hC, by simp⟩

/-! ## Claim theorems -/

/-- **C4.** For every string matching `^[^\s@]+@[^\s@]+\.[^\s@]+$`,
constructing an `Email` succeeds and `get()` returns exactly the given
string, with no normalization; for every non-matching string — in particular
`'invalid-email'`, `'@example.com'`, `'test@'`, `'test@.com'`, `''` and
`'user @example.com'` — construction fails with `'Invalid email format'`. -/
theorem email_validation_spec :
    (∀ s : String, emailRegexSpec s → Email.mk? s = Except.ok ⟨s⟩ ∧ Email.get ⟨s⟩ = s) ∧
    (∀ s : String, ¬ emailRegexSpec s → Email.mk? s = Except.error "Invalid email format") ∧
    (∀ s ∈ (["invalid-email", "@example.com", "test@", "test@.com", "",
        "user @example.com"] : List String),
      Email.mk? s = Except.error "Invalid email format") := by
  refine ⟨?_, ?_, ?_⟩
  · intro s hs
    have h := (matchesEmailPattern_iff s).mpr hs
    exact ⟨by simp [Email.mk?, h], rfl⟩
  · intro s hs
    have h : matchesEmailPattern s = false := by
      rcases hm : matchesEmailPattern s with _ | _
      · rfl
      · exact absurd ((matchesEmailPattern_iff s).mp hm) hs
    simp [Email.mk?, h]
  · intro s hs
    fin_cases hs <;> decide

/-- Witness for C4 at `'test@example.com'`. -/
theorem email_validation_witness :
    Email.mk? "test@example.com" = Except.ok ⟨"test@example.com"⟩ ∧
    Email.get ⟨"test@example.com"⟩ = "test@example.com" :=
  email_validation_spec.1 "test@example.com" ((matchesEmailPattern_iff _).mp (by decide))

/-- **C3.** For a caught error that is not a framework `BadRequestException`,
the filter responds with `{ statusCode, message, timestamp }` where the
message is the error's own text and the status is 400 when the message
contains `'Invalid email format'`, else 409 when it contains
`'User already exists'`, else 400 when it contains `'UserId must be'`, else
500; for a `BadRequestException` the status and message are instead that
exception's own declared status and response payload (the string itself, or
the object's `message` field). -/
theorem domainExceptionFilter_spec (nowIso msg : String)
    (br : Option (Nat × NestResponse)) :
    DomainExceptionFilter.catchErr nowIso ⟨msg, br⟩ =
      match br with
      | some (st, .str s) => (st, ⟨st, s, nowIso⟩)
      | some (st, .obj m) => (st, ⟨st, m, nowIso⟩)
      | none =>
          if strIncludes msg "Invalid email format" then (400, ⟨400, msg, nowIso⟩)
          else if strIncludes msg "User already exists" then (409, ⟨409, msg, nowIso⟩)
          else if strIncludes msg "UserId must be" then (400, ⟨400, msg, nowIso⟩)
          else (500, ⟨500, msg, nowIso⟩) := by
  rcases br with _ | ⟨st, resp⟩
  · unfold DomainExceptionFilter.catchErr
    by_cases h1 : strIncludes msg "Invalid email format" <;>
      by_cases h2 : strIncludes msg "User already exists" <;>
        by_cases h3 : strIncludes msg "UserId must be" <;>
          simp [h1, h2, h3]
  · rcases resp with s | m <;> rfl

/-- **C5 counterexample.** The claim says `equals` returns `false` (rather
than failing) when `other`'s id is absent; but for two entities of the same
concrete type where `this` has an id and `other` does not — the state the
repository's own test builds via `createWithoutId` — `equals` calls
`other.getId()` and fails with `'Entity ID is not set'` instead of returning
`false`. -/
theorem entity_equals_absent_id_counterexample :
    Entity.equals (α := String) ⟨"TestEntity", some ⟨"test-id"⟩⟩
        (some ⟨"TestEntity", none⟩) = Except.error "Entity ID is not set" ∧
    Entity.equals (α := String) ⟨"TestEntity", some ⟨"test-id"⟩⟩
        (some ⟨"TestEntity", none⟩) ≠ Except.ok false := by
  exact ⟨by decide, by decide⟩

/-- **C5 (amended).** `equals(other)` returns `true` iff `other` is present,
of the same concrete type, has an id, and that id's raw value equals this
entity's; it returns `false` when `other` is absent, when this entity's id
is absent, or when the concrete types differ; but when the types match, this
entity has an id, and `other`'s id is absent, it fails with
`'Entity ID is not set'` rather than returning `false`. -/
theorem entity_equals_spec {α : Type} [DecidableEq α] (e : Entity α)
    (other : Option (Entity α)) :
    (Entity.equals e other = Except.ok true ↔
      ∃ o i j, other = some o ∧ e.id = some i ∧ o.id = some j ∧
        e.ctorName = o.ctorName ∧ i.value = j.value) ∧
    (∀ o i, other = some o → e.id = some i → e.ctorName = o.ctorName → o.id = none →
      Entity.equals e other = Except.error "Entity ID is not set") ∧
    (other = none → Entity.equals e other = Except.ok false) ∧
    (e.id = none → Entity.equals e other = Except.ok false) ∧
    (∀ o, other = some o → e.ctorName ≠ o.ctorName → Entity.equals e other = Except.ok false) := by
  refine ⟨?_, ?_, ?_, ?_, ?_⟩
  · constructor
    · intro h
      rcases other with _ | o
      · simp [Entity.equals] at h
      rcases hid : e.id with _ | i
      · simp [Entity.equals, hid] at h
      by_cases hc : e.ctorName = o.ctorName
      · rcases hoid : o.id with _ | j
        · simp [Entity.equals, hid, hc, Entity.getId, hoid] at h
        · refine ⟨o, i, j, rfl, rfl, hoid, hc, ?_⟩
          simp [Entity.equals, hid, hc, Entity.getId, hoid, EntityId.equals] at h
          exact h
      · simp [Entity.equals, hid, hc] at h
    · rintro ⟨o, i, j, rfl, hid, hoid, hc, hv⟩
      simp [Entity.equals, hid, hc, Entity.getId, hoid, EntityId.equals, hv]
  · rintro o i rfl hid hc hoid
    simp [Entity.equals, hid, hc, Entity.getId, hoid]
  · rintro rfl
    simp [Entity.equals]
  · intro hid
    rcases other with _ | o <;> simp [Entity.equals, hid]
  · rintro o rfl hc
    rcases hid : e.id with _ | i <;> simp [Entity.equals, hid, hc]

/-- Witness for C5 (amended): an equal pair, and the error case of the
second conjunct, at concrete entities. -/
theorem entity_equals_witness :
    Entity.equals (α := String) ⟨"TestEntity", some ⟨"same-id"⟩⟩
        (some ⟨"TestEntity", some ⟨"same-id"⟩⟩) = Except.ok true ∧
    Entity.equals (α := String) ⟨"TestEntity", some ⟨"test-id"⟩⟩
        (some ⟨"TestEntity", none⟩) = Except.error "Entity ID is not set" :=
  ⟨(entity_equals_spec ⟨"TestEntity", some ⟨"same-id"⟩⟩
      (some ⟨"TestEntity", some ⟨"same-id"⟩⟩)).1.mpr
      ⟨⟨"TestEntity", some ⟨"same-id"⟩⟩, ⟨"same-id"⟩, ⟨"same-id"⟩, rfl, rfl, rfl, rfl, rfl⟩,
   (entity_equals_spec ⟨"TestEntity", some ⟨"test-id"⟩⟩
      (some ⟨"TestEntity", none⟩)).2.1 ⟨"TestEntity", none⟩ ⟨"test-id"⟩ rfl rfl rfl rfl⟩

/-- **C8 counterexample.** `UserId.create(null)` is an input that is not a
string, yet it fails with the base identifier message
`'ID cannot be null or undefined'` (as the repository's own test expects),
not with `'UserId must be a non-empty string'` as the claim states. -/
theorem userId_create_nullish_counterexample :
    UserId.create? JsInput.nullish = Except.error "ID cannot be null or undefined" ∧
    UserId.create? JsInput.nullish ≠ Except.error "UserId must be a non-empty string" := by
  exact ⟨by decide, by decide⟩

/-- **C8 (amended).** `UserId.create` fails with
`'UserId must be a non-empty string'` for every non-nullish input that is
not a string and for every string that trims to empty (including `''` and
`'   '`); nullish inputs instead fail with the base check's
`'ID cannot be null or undefined'`; every other string input (such as
`'12345'`, `'tenant-123:user-456'`, or a well-formed UUID string) succeeds
with the given string preserved unchanged. -/
theorem userId_create_spec :
    (UserId.create? JsInput.nullish = Except.error "ID cannot be null or undefined") ∧
    (UserId.create? JsInput.nonString = Except.error "UserId must be a non-empty string") ∧
    (∀ s : String, (jsTrim s).length = 0 →
      UserId.create? (.str s) = Except.error "UserId must be a non-empty string") ∧
    (∀ s : String, (jsTrim s).length ≠ 0 → UserId.create? (.str s) = Except.ok ⟨s⟩) ∧
    (UserId.create? (.str "") = Except.error "UserId must be a non-empty string") ∧
    (UserId.create? (.str "   ") = Except.error "UserId must be a non-empty string") ∧
    (UserId.create? (.str "12345") = Except.ok ⟨"12345"⟩) ∧
    (UserId.create? (.str "tenant-123:user-456") = Except.ok ⟨"tenant-123:user-456"⟩) ∧
    (UserId.create? (.str "550e8400-e29b-41d4-a716-446655440000") =
      Except.ok ⟨"550e8400-e29b-41d4-a716-446655440000"⟩) := by
  refine ⟨by decide, by decide, ?_, ?_, by decide, by decide, by decide, by decide, by decide⟩
  · intro s h
    simp [UserId.create?, h]
  · intro s h
    simp [UserId.create?, h]

/-- Witness for C8 (amended) at the string `'user-123'`. -/
theorem userId_create_witness :
    UserId.create? (.str "user-123") = Except.ok ⟨"user-123"⟩ :=
  userId_create_spec.2.2.2.1 "user-123" (by decide)

/-- **C6.** `toResponseDto` produces exactly the fields id (raw identifier
value), email (raw email string), firstName, lastName, status, createdAt and
updatedAt — and the result of the mapping does not depend on the password
hash: two users differing only in `passwordHash` map to identical response
DTOs. -/
theorem toResponseDto_spec (u : User) (i : UserId) (h : u.id = some i) :
    UserMapper.toResponseDto u =
      Except.ok ⟨i.value, u.email.get, u.firstName, u.lastName, u.status,
        u.createdAt, u.updatedAt⟩ ∧
    ∀ ph : String,
      UserMapper.toResponseDto { u with passwordHash := ph } =
        UserMapper.toResponseDto u := by
  constructor
  · simp [UserMapper.toResponseDto, User.getId, h]
  · intro ph
    simp [UserMapper.toResponseDto, User.getId, h]

/-- Witness for C6 at a concrete user. -/
theorem toResponseDto_witness :
    UserMapper.toResponseDto
        ⟨some ⟨"id-1"⟩, some "A", none, ⟨"a@b.c"⟩, "hash", "ACTIVE", 3, 4⟩ =
      Except.ok ⟨"id-1", "a@b.c", some "A", none, "ACTIVE", 3, 4⟩ :=
  (toResponseDto_spec ⟨some ⟨"id-1"⟩, some "A", none, ⟨"a@b.c"⟩, "hash", "ACTIVE", 3, 4⟩
    ⟨"id-1"⟩ rfl).1

/-- **C7 counterexample.** The claim's validity premise only requires the
identifier's raw value to be a non-empty string.  The whitespace-only id
`' '` is non-empty and the email `'a@b.c'` matches the pattern, yet the
round trip fails: `toDomain` runs `UserId.create(' ')`, whose trim check
throws `'UserId must be a non-empty string'`. -/
theorem persistence_roundtrip_counterexample :
    (" " : String) ≠ "" ∧ matchesEmailPattern "a@b.c" = true ∧
    (PrismaUserMapper.toPersistence
        ⟨some ⟨" "⟩, none, none, ⟨"a@b.c"⟩, "h", "ACTIVE", 0, 0⟩ >>=
      PrismaUserMapper.toDomain) = Except.error "UserId must be a non-empty string" := by
  exact ⟨by decide, by decide, by decide⟩

/-- **C7 (amended).** For every User whose stored email string matches the
Email pattern and whose identifier raw value is non-empty after trimming
(as `UserId`'s own validation requires), the persistence round trip
`toDomain(toPersistence(user))` succeeds and returns a User equal to the
original in every field (identifier raw value, email string, passwordHash,
firstName, lastName, status, createdAt, updatedAt). -/
theorem persistence_roundtrip_spec (u : User) (i : UserId) (hid : u.id = some i)
    (hemail : matchesEmailPattern u.email.get = true)
    (htrim : (jsTrim i.value).length ≠ 0) :
    (PrismaUserMapper.toPersistence u >>= PrismaUserMapper.toDomain) = Except.ok u := by
  rcases u with ⟨uid, fn, ln, ⟨es⟩, ph, st, ca, ua⟩
  simp only at hid
  subst hid
  simp only [Email.get] at hemail
  simp [PrismaUserMapper.toPersistence, User.getId, PrismaUserMapper.toDomain,
    Email.mk?, Email.get, hemail, User.reconstitute, UserId.create?, htrim, User.make]

/-- Witness for C7 (amended) at a concrete user. -/
theorem persistence_roundtrip_witness :
    (PrismaUserMapper.toPersistence
        ⟨some ⟨"id-9"⟩, some "Jane", some "Doe", ⟨"j@d.io"⟩, "h", "ACTIVE", 1, 2⟩ >>=
      PrismaUserMapper.toDomain) =
      Except.ok ⟨some ⟨"id-9"⟩, some "Jane", some "Doe", ⟨"j@d.io"⟩, "h", "ACTIVE", 1, 2⟩ :=
  persistence_roundtrip_spec
    ⟨some ⟨"id-9"⟩, some "Jane", some "Doe", ⟨"j@d.io"⟩, "h", "ACTIVE", 1, 2⟩
    ⟨"id-9"⟩ rfl (by decide) (by decide)

/-- **C9.** `User.create(firstName, lastName, email, passwordHash)` yields a
User with status ACTIVE, `createdAt = updatedAt` (the single instant `now`),
the given fields unchanged, and an id freshly generated by
`UserId.generate()` — distinct from the id of any other User produced by
`create` (at a different draw of the injective UUID stream). -/
theorem user_create_defaults_spec (uuidStream : Nat → String)
    (hinj : Function.Injective uuidStream) (k₁ k₂ now₁ now₂ : Nat)
    (fn₁ ln₁ fn₂ ln₂ : Option String) (e₁ e₂ : Email) (h₁ h₂ : String)
    (hk : k₁ ≠ k₂) :
    (User.create uuidStream k₁ now₁ fn₁ ln₁ e₁ h₁).status = UserStatus.ACTIVE ∧
    (User.create uuidStream k₁ now₁ fn₁ ln₁ e₁ h₁).createdAt = now₁ ∧
    (User.create uuidStream k₁ now₁ fn₁ ln₁ e₁ h₁).updatedAt = now₁ ∧
    (User.create uuidStream k₁ now₁ fn₁ ln₁ e₁ h₁).createdAt =
      (User.create uuidStream k₁ now₁ fn₁ ln₁ e₁ h₁).updatedAt ∧
    (User.create uuidStream k₁ now₁ fn₁ ln₁ e₁ h₁).firstName = fn₁ ∧
    (User.create uuidStream k₁ now₁ fn₁ ln₁ e₁ h₁).lastName = ln₁ ∧
    (User.create uuidStream k₁ now₁ fn₁ ln₁ e₁ h₁).email = e₁ ∧
    (User.create uuidStream k₁ now₁ fn₁ ln₁ e₁ h₁).passwordHash = h₁ ∧
    (User.create uuidStream k₁ now₁ fn₁ ln₁ e₁ h₁).id =
      some (UserId.generate uuidStream k₁) ∧
    (User.create uuidStream k₁ now₁ fn₁ ln₁ e₁ h₁).id ≠
      (User.create uuidStream k₂ now₂ fn₂ ln₂ e₂ h₂).id := by
  refine ⟨rfl, rfl, rfl, rfl, rfl, rfl, rfl, rfl, rfl, ?_⟩
  intro h
  simp [User.create, User.make, UserId.generate] at h
  exact hk (hinj h)

/-- Witness for C9 at a concrete injective UUID stream and two draws. -/
theorem user_create_defaults_witness :
    (User.create (fun n => String.mk (List.replicate n 'a')) 0 5 (some "Test") none
      ⟨"a@b.c"⟩ "h").status = UserStatus.ACTIVE ∧
    (User.create (fun n => String.mk (List.replicate n 'a')) 0 5 (some "Test") none
      ⟨"a@b.c"⟩ "h").id ≠
      (User.create (fun n => String.mk (List.replicate n 'a')) 1 6 none none
        ⟨"c@d.e"⟩ "h2").id := by
  have h := user_create_defaults_spec (fun n => String.mk (List.replicate n 'a'))
    (fun a b hab => by simpa using congrArg (fun s => s.data.length) hab)
    0 1 5 6 (some "Test") none none none ⟨"a@b.c"⟩ ⟨"c@d.e"⟩ "h" "h2" (by decide)
  exact ⟨h.1, h.2.2.2.2.2.2.2.2.2⟩

/-- **C10.** Both factories always populate the inherited id field:
`isNew()` is false and `getId()` succeeds (never raising
`'Entity ID is not set'`) for every User produced by `create`, and for every
User successfully produced by `reconstitute`. -/
theorem user_id_always_set_spec :
    (∀ (uuidStream : Nat → String) (k now : Nat) (fn ln : Option String) (e : Email)
        (ph : String),
      (User.create uuidStream k now fn ln e ph).isNew = false ∧
      (User.create uuidStream k now fn ln e ph).getId =
        Except.ok (UserId.generate uuidStream k)) ∧
    (∀ (id : String) (fn ln : Option String) (e : Email) (ph : String)
        (st : UserStatus) (ca ua : Nat) (u : User),
      User.reconstitute id fn ln e ph st ca ua = Except.ok u →
      u.isNew = false ∧ ∃ i, u.id = some i ∧ u.getId = Except.ok i) := by
  refine ⟨fun _ _ _ _ _ _ _ => ⟨rfl, rfl⟩, ?_⟩
  intro id fn ln e ph st ca ua u h
  unfold User.reconstitute at h
  rcases hc : UserId.create? (.str id) with m | uid
  · rw [hc] at h; simp at h
  · rw [hc] at h
    simp at h
    subst h
    exact ⟨rfl, uid, rfl, rfl⟩

/-- Witness for C10: a created user and a reconstituted user, both with the
id set. -/
theorem user_id_always_set_witness :
    (User.create (fun _ => "u0") 0 0 none none ⟨"a@b.c"⟩ "h").isNew = false ∧
    ((⟨some ⟨"abc"⟩, none, none, ⟨"a@b.c"⟩, "h", "ACTIVE", 0, 0⟩ : User).isNew = false ∧
      ∃ i, (⟨some ⟨"abc"⟩, none, none, ⟨"a@b.c"⟩, "h", "ACTIVE", 0, 0⟩ : User).id = some i ∧
        (⟨some ⟨"abc"⟩, none, none, ⟨"a@b.c"⟩, "h", "ACTIVE", 0, 0⟩ : User).getId =
          Except.ok i) :=
  ⟨(user_id_always_set_spec.1 (fun _ => "u0") 0 0 none none ⟨"a@b.c"⟩ "h").1,
    user_id_always_set_spec.2 "abc" none none ⟨"a@b.c"⟩ "h" "ACTIVE" 0 0 _ (by decide)⟩

/-- **C1.** For a registration DTO with a well-formed email for which the
repository lookup finds no user, `register` performs exactly the port calls
`findByEmail`, then `hash` on `dto.password`, then `save` on the freshly
created User, and returns that same in-memory User — independent of what the
repository's `save` returns — whose email accessor yields `dto.email`. -/
theorem register_success_spec (env : RegisterEnv) (dto : RegisterUserDto)
    (hemail : matchesEmailPattern dto.email = true)
    (hfind : env.findByEmailImpl ⟨dto.email⟩ = none) :
    UserRegisterService.register env dto =
      (Except.ok (User.create env.uuidStream env.uuidIndex env.now dto.firstName
          dto.lastName ⟨dto.email⟩ (env.hashImpl dto.password)),
        [PortCall.findByEmail ⟨dto.email⟩, PortCall.hash dto.password,
          PortCall.save (User.create env.uuidStream env.uuidIndex env.now dto.firstName
            dto.lastName ⟨dto.email⟩ (env.hashImpl dto.password))]) ∧
    (User.create env.uuidStream env.uuidIndex env.now dto.firstName dto.lastName
        ⟨dto.email⟩ (env.hashImpl dto.password)).email.get = dto.email ∧
    (∀ f : User → User,
      (UserRegisterService.register { env with saveImpl := f } dto).1 =
        Except.ok (User.create env.uuidStream env.uuidIndex env.now dto.firstName
          dto.lastName ⟨dto.email⟩ (env.hashImpl dto.password))) ∧
    (UserRegisterService.register env dto).2.count (PortCall.findByEmail ⟨dto.email⟩) = 1 ∧
    (UserRegisterService.register env dto).2.count (PortCall.hash dto.password) = 1 ∧
    (UserRegisterService.register env dto).2.count
      (PortCall.save (User.create env.uuidStream env.uuidIndex env.now dto.firstName
        dto.lastName ⟨dto.email⟩ (env.hashImpl dto.password))) = 1 := by
  have hmain : UserRegisterService.register env dto =
      (Except.ok (User.create env.uuidStream env.uuidIndex env.now dto.firstName
          dto.lastName ⟨dto.email⟩ (env.hashImpl dto.password)),
        [PortCall.findByEmail ⟨dto.email⟩, PortCall.hash dto.password,
          PortCall.save (User.create env.uuidStream env.uuidIndex env.now dto.firstName
            dto.lastName ⟨dto.email⟩ (env.hashImpl dto.password))]) := by
    unfold UserRegisterService.register
    simp [Email.mk?, hemail, hfind]
  refine ⟨hmain, rfl, ?_, ?_, ?_, ?_⟩
  · intro f
    unfold UserRegisterService.register
    simp [Email.mk?, hemail, hfind]
  all_goals rw [hmain]; simp [List.count_cons, List.count_nil]

/-- Witness for C1 at a concrete environment and DTO. -/
theorem register_success_witness :
    UserRegisterService.register
      ⟨fun _ => none, fun _ => "hashedPassword", fun u => u, fun _ => "uuid-1", 0, 7⟩
      ⟨"test@example.com", some "Test User", some "Example", "password123"⟩ =
      (Except.ok ⟨some ⟨"uuid-1"⟩, some "Test User", some "Example",
          ⟨"test@example.com"⟩, "hashedPassword", "ACTIVE", 7, 7⟩,
        [PortCall.findByEmail ⟨"test@example.com"⟩, PortCall.hash "password123",
          PortCall.save ⟨some ⟨"uuid-1"⟩, some "Test User", some "Example",
            ⟨"test@example.com"⟩, "hashedPassword", "ACTIVE", 7, 7⟩]) :=
  (register_success_spec
    ⟨fun _ => none, fun _ => "hashedPassword", fun u => u, fun _ => "uuid-1", 0, 7⟩
    ⟨"test@example.com", some "Test User", some "Example", "password123"⟩
    (by decide) rfl).1

/-- **C2.** For a registration DTO with a well-formed email for which the
repository lookup finds an existing user, `register` fails with a Conflict
error carrying `'User already exists'`, and neither the hasher's `hash` nor
the repository's `save` is ever invoked. -/
theorem register_conflict_spec (env : RegisterEnv) (dto : RegisterUserDto)
    (existing : User) (hemail : matchesEmailPattern dto.email = true)
    (hfind : env.findByEmailImpl ⟨dto.email⟩ = some existing) :
    UserRegisterService.register env dto =
      (Except.error (RegisterError.conflict "User already exists"),
        [PortCall.findByEmail ⟨dto.email⟩]) ∧
    (∀ pw, PortCall.hash pw ∉ (UserRegisterService.register env dto).2) ∧
    (∀ v, PortCall.save v ∉ (UserRegisterService.register env dto).2) := by
  have hmain : UserRegisterService.register env dto =
      (Except.error (RegisterError.conflict "User already exists"),
        [PortCall.findByEmail ⟨dto.email⟩]) := by
    unfold UserRegisterService.register
    simp [Email.mk?, hemail, hfind]
  refine ⟨hmain, ?_, ?_⟩ <;> intro x <;> rw [hmain] <;> simp

/-- Witness for C2 at a concrete environment with an existing user on file. -/
theorem register_conflict_witness :
    UserRegisterService.register
      ⟨fun _ => some ⟨some ⟨"1"⟩, some "Test User", some "Example",
          ⟨"test@example.com"⟩, "hashedPassword", "ACTIVE", 0, 0⟩,
        fun _ => "hashedPassword", fun u => u, fun _ => "uuid-1", 0, 7⟩
      ⟨"test@example.com", some "Test User", some "Example", "password123"⟩ =
      (Except.error (RegisterError.conflict "User already exists"),
        [PortCall.findByEmail ⟨"test@example.com"⟩]) :=
  (register_conflict_spec
    ⟨fun _ => some ⟨some ⟨"1"⟩, some "Test User", some "Example",
        ⟨"test@example.com"⟩, "hashedPassword", "ACTIVE", 0, 0⟩,
      fun _ => "hashedPassword", fun u => u, fun _ => "uuid-1", 0, 7⟩
    ⟨"test@example.com", some "Test User", some "Example", "password123"⟩
    ⟨some ⟨"1"⟩, some "Test User", some "Example", ⟨"test@example.com"⟩,
      "hashedPassword", "ACTIVE", 0, 0⟩
    (by decide) rfl).1

end AuthService
